import Mathlib

/-!
Verification development for the Radio Sweeper Studio audio core.

The program decodes a generated voice clip, applies one of a fixed set of
audio effect presets, mixes the result with optional background / SFX /
vocal-drop layers, and encodes the mix as a 16-bit PCM WAV container.

This file is a shallow embedding of that core:
  * `AudioClip` models a decoded `AudioBuffer` (sample data as a total
    function channel → frame → amplitude, amplitudes as rationals).
  * A `Blob` at the decode boundary is modelled by its decode result:
    `Option AudioClip` (`none` = the bytes fail to decode).
  * `audioBufferToWavBytes` embeds `audioBufferToWavBlob` from
    `src/services/audioEffectsService.ts` (lines 6-61).
  * `renderLength` / `applyEffectMeta` embed the output-buffer sizing of
    `applyEffect` (same file, lines 80-96).
  * `mixRender` / `mixAudio` embed `mixAudio` (same file, lines 209-324):
    the offline render sums the voice, a looped background layer and the
    transient layers at their computed start offsets.
  * `getSfxBlob` / `getTrackBlob` embed the preset asset stores
    (`src/services/sfxService.ts` and the background-track service).
  * `takeStep` / `runTakeTrace` embed the per-Take update/commit protocol
    of `updateTakeState` / `processAudioForTake` in the application root
    as a step relation over interleaved begin/commit events.
-/

namespace RadioSweeper

/-- A decoded audio buffer: sample rate, channel count, length in frames,
and the per-channel sample data (a total function; samples outside the
clip are irrelevant to every statement below). -/
@[ext]
structure AudioClip where
  sampleRate : ℕ
  numberOfChannels : ℕ
  length : ℕ
  data : ℕ → ℕ → ℚ

/-- `AudioBuffer.duration` = length / sampleRate, in seconds. -/
def AudioClip.duration (c : AudioClip) : ℚ :=
  (c.length : ℚ) / (c.sampleRate : ℚ)

/-! ## Encoder: `audioBufferToWavBlob` (audioEffectsService.ts lines 6-61) -/

/-- Line 53: `Math.max(-1, Math.min(1, channels[i][offset]))`. -/
def clamp01 (q : ℚ) : ℚ := max (-1) (min 1 q)

/-- Line 54: `sample < 0 ? sample * 32768 : sample * 32767`. -/
def scale16 (q : ℚ) : ℚ := if q < 0 then q * 32768 else q * 32767

/-- ECMAScript `ToIntegerOrInfinity` truncation toward zero, used by
`DataView.prototype.setInt16` on a non-integral argument. -/
def ratTrunc (q : ℚ) : ℤ := if 0 ≤ q then ⌊q⌋ else ⌈q⌉

/-- Wrap an integer into the 16 raw bits stored by `setInt16`
(ECMAScript `ToInt16`, step: `int modulo 2^16`). -/
def toUint16 (i : ℤ) : ℕ := (i % 65536).toNat

/-- The signed value denoted by the 16 bits `setInt16` stores for the
(possibly fractional) number `q`: truncate toward zero, wrap modulo
`2^16`, reinterpret as two's complement. -/
def jsToInt16 (q : ℚ) : ℤ :=
  let m := toUint16 (ratTrunc q)
  if 32768 ≤ m then (m : ℤ) - 65536 else (m : ℤ)

/-- The 16-bit word the encoder stores for one sample: clamp, scale,
then `setInt16` conversion (lines 53-55). -/
def encodeSampleWord (q : ℚ) : ℕ := toUint16 (ratTrunc (scale16 (clamp01 q)))

/-- Little-endian bytes of `view.setUint16(pos, data, true)`. -/
def u16le (n : ℕ) : List ℕ := [n % 256, n / 256 % 256]

/-- Little-endian bytes of `view.setUint32(pos, data, true)`. -/
def u32le (n : ℕ) : List ℕ :=
  [n % 256, n / 256 % 256, n / 65536 % 256, n / 16777216 % 256]

/-- The 44-byte RIFF/fmt/data header written at lines 26-43. -/
def wavHeader (c : AudioClip) : List ℕ :=
  let numOfChan := c.numberOfChannels
  let length := c.length * numOfChan * 2 + 44
  u32le 0x46464952 ++ u32le (length - 8) ++ u32le 0x45564157 ++
  u32le 0x20746d66 ++ u32le 16 ++ u16le 1 ++ u16le numOfChan ++
  u32le c.sampleRate ++ u32le (c.sampleRate * 2 * numOfChan) ++
  u16le (numOfChan * 2) ++ u16le 16 ++
  u32le 0x61746164 ++ u32le (length - 44)

/-- Bytes of one stored sample. -/
def sampleBytes (q : ℚ) : List ℕ := u16le (encodeSampleWord q)

/-- Bytes of one interleaved frame: channel 0 first, then channel 1, ...
(the inner `for (i = 0; i < numOfChan; i++)` loop at lines 52-57). -/
def frameBytes (c : AudioClip) (f : ℕ) : List ℕ :=
  (List.range c.numberOfChannels).flatMap fun ch => sampleBytes (c.data ch f)

/-- The full WAV byte string produced by `audioBufferToWavBlob`:
header, then frame-major interleaved samples (the outer
`while (pos < length)` loop advancing `offset` once per frame). -/
def audioBufferToWavBytes (c : AudioClip) : List ℕ :=
  wavHeader c ++ (List.range c.length).flatMap (frameBytes c)

/-- Modelled from the spec: the encoder the specification describes,
identical to `audioBufferToWavBytes` except that each scaled sample is
"rounded to the nearest 16-bit signed integer" instead of truncated
toward zero. Used only to compare the spec's wording with the code. -/
def specRoundSampleWord (q : ℚ) : ℕ := toUint16 (round (scale16 (clamp01 q)))

/-- Modelled from the spec: WAV bytes under round-to-nearest sample
conversion. -/
def specRoundWavBytes (c : AudioClip) : List ℕ :=
  wavHeader c ++ (List.range c.length).flatMap fun f =>
    (List.range c.numberOfChannels).flatMap fun ch =>
      u16le (specRoundSampleWord (c.data ch f))

/-! ## Effect engine: `applyEffect` (audioEffectsService.ts lines 66-207) -/

inductive EffectPreset
  | none
  | radioBooth
  | concertHall
  | cosmicDelay
  | telephone
  | robotVoice
  | pitchShiftUp
  | pitchShiftDown
deriving DecidableEq

/-- Line 80: `const PITCH_UP_RATE = 1.25`. -/
def PITCH_UP_RATE : ℚ := 1.25

/-- Line 81: `const PITCH_DOWN_RATE = 0.8`. -/
def PITCH_DOWN_RATE : ℚ := 0.8

/-- Lines 83-88: the frame count of the `OfflineAudioContext`.
`renderLength = decodedBuffer.length`, overridden with
`Math.ceil(length / rate)` only for the two pitch-shift presets. -/
def renderLength (preset : EffectPreset) (length : ℕ) : ℕ :=
  match preset with
  | EffectPreset.pitchShiftUp => ⌈(length : ℚ) / PITCH_UP_RATE⌉₊
  | EffectPreset.pitchShiftDown => ⌈(length : ℚ) / PITCH_DOWN_RATE⌉₊
  | _ => length

/-- The dimensions of a decoded buffer (the data handled by the
`OfflineAudioContext` constructor). -/
structure RenderSpec where
  numberOfChannels : ℕ
  length : ℕ
  sampleRate : ℕ
deriving DecidableEq

/-- Dimensions of the buffer returned by `applyEffect`: `None` returns
the input unchanged (line 70-72); every other preset renders an
`OfflineAudioContext(channels, renderLength, sampleRate)` built from the
input's channel count and sample rate (lines 92-96). -/
def applyEffectMeta (input : RenderSpec) (preset : EffectPreset) : RenderSpec :=
  match preset with
  | EffectPreset.none => input
  | _ =>
    { numberOfChannels := input.numberOfChannels
      length := renderLength preset input.length
      sampleRate := input.sampleRate }

/-! ## Mix engine: `mixAudio` (audioEffectsService.ts lines 209-324) -/

/-- The `timing` field of an applied SFX / vocal drop:
`'start' | 'middle' | 'end'`. -/
inductive Timing
  | start
  | middle
  | end_
deriving DecidableEq

/-- One transient overlay layer (an SFX or vocal drop entry): the blob is
modelled by its decode result (`none` = `decodeAudioData` rejects). -/
structure TransientLayer where
  blob : Option AudioClip
  volume : ℚ
  timing : Timing

/-- The optional background track layer. -/
structure BackgroundLayer where
  blob : Option AudioClip
  volume : ℚ

/-- The `switch (sfx.timing)` computing `startTime` in seconds
(lines 263-274 for SFX, 297-308 for vocal drops). -/
def rawStartTime (voiceDur layerDur : ℚ) : Timing → ℚ
  | Timing.start => 0
  | Timing.middle => voiceDur / 2 - layerDur / 2
  | Timing.end_ => voiceDur - layerDur

/-- Line 276 / 310: `source.start(Math.max(0, startTime))`. -/
def startTime (voiceDur layerDur : ℚ) (t : Timing) : ℚ :=
  max 0 (rawStartTime voiceDur layerDur t)

/-- The output frame at which a transient layer begins playing inside
the offline render. -/
def startFrame (voice layer : AudioClip) (t : Timing) : ℕ :=
  ⌊startTime voice.duration layer.duration t * (voice.sampleRate : ℚ)⌋₊

/-- Contribution of one transient layer to output channel `ch`, frame
`n`.  A layer whose blob fails to decode is caught and skipped (the
`try`/`catch` at lines 252-279 and 286-313); otherwise the full source
buffer plays from its start frame at the configured gain — the source is
never shortened, frames beyond the render length simply fall outside the
output. -/
def transientContribution (voice : AudioClip) (l : TransientLayer) (ch n : ℕ) : ℚ :=
  match l.blob with
  | Option.none => 0
  | Option.some clip =>
      let s := startFrame voice clip l.timing
      if s ≤ n ∧ n - s < clip.length then l.volume * clip.data ch (n - s) else 0

/-- Contribution of the optional background layer: decoded, played with
`loop = true` from frame 0 at its gain (lines 232-247); a decode failure
is caught and the layer skipped. -/
def backgroundContribution (bg : Option BackgroundLayer) (ch n : ℕ) : ℚ :=
  match bg with
  | Option.none => 0
  | Option.some b =>
      match b.blob with
      | Option.none => 0
      | Option.some clip =>
          if clip.length = 0 then 0 else b.volume * clip.data ch (n % clip.length)

/-- The offline render of `mixAudio`: an
`OfflineAudioContext(voice.numberOfChannels, voice.length, voice.sampleRate)`
(lines 220-224) summing the voice at gain 1 from frame 0 with every
layer's contribution.  Frames at or beyond `voice.length` are not
rendered. -/
def mixRender (voice : AudioClip) (bg : Option BackgroundLayer)
    (sfx drops : List TransientLayer) : AudioClip :=
  { sampleRate := voice.sampleRate
    numberOfChannels := voice.numberOfChannels
    length := voice.length
    data := fun ch n =>
      if ch < voice.numberOfChannels ∧ n < voice.length then
        voice.data ch n + backgroundContribution bg ch n
          + (sfx.map fun l => transientContribution voice l ch n).sum
          + (drops.map fun l => transientContribution voice l ch n).sum
      else 0 }

/-- `mixAudio`: decoding the voice blob is the mandatory path (an
uncaught failure aborts), after which the render always succeeds. -/
def mixAudio (voiceBlob : Option AudioClip) (bg : Option BackgroundLayer)
    (sfx drops : List TransientLayer) : Option AudioClip :=
  voiceBlob.map fun voice => mixRender voice bg sfx drops

/-! ## Preset asset stores (sfxService.ts and the background-track
service) -/

/-- Value of one base64 character (the `data:` URL decoder applied by
`fetch` to the embedded strings). -/
def b64val (c : Char) : Option ℕ :=
  if 'A' ≤ c ∧ c ≤ 'Z' then Option.some (c.toNat - 65)
  else if 'a' ≤ c ∧ c ≤ 'z' then Option.some (c.toNat - 97 + 26)
  else if '0' ≤ c ∧ c ≤ '9' then Option.some (c.toNat - 48 + 52)
  else if c = '+' then Option.some 62
  else if c = '/' then Option.some 63
  else Option.none

/-- Regroup 6-bit values into bytes (standard base64). -/
def decodeGroups : List ℕ → List ℕ
  | a :: b :: c :: d :: rest =>
      (a * 4 + b / 16) :: ((b % 16) * 16 + c / 4) :: ((c % 4) * 64 + d)
        :: decodeGroups rest
  | [a, b] => [a * 4 + b / 16]
  | [a, b, c] => [a * 4 + b / 16, (b % 16) * 16 + c / 4]
  | _ => []

/-- Decode a base64 string to its byte content. -/
def base64Decode (s : String) : List ℕ :=
  decodeGroups ((s.data.filter fun c => c ≠ '=').filterMap b64val)

/-- A `Blob` produced by an asset store: its byte content and MIME type.
Two store results are byte-identical exactly when these agree. -/
structure SBlob where
  bytes : List ℕ
  type : String
deriving DecidableEq

/-- `base64ToBlob` in sfxService.ts (lines 17-23): an empty base64
string short-circuits to `new Blob([], { type })`; otherwise the data
URL is fetched and decoded. -/
def base64ToBlobSfx (base64 : String) (type : String) : SBlob :=
  if base64 = "" then { bytes := [], type := type }
  else { bytes := base64Decode base64, type := type }

/-- `base64ToBlob` in the background-track service (no empty-string
short-circuit; unreachable difference because `getTrackBlob` rejects the
empty entry first). -/
def base64ToBlobTrack (base64 : String) (type : String) : SBlob :=
  { bytes := base64Decode base64, type := type }

/-- `PRESET_SFX` (sfxService.ts lines 6-12), keyed by the `SfxPreset`
string values; ids outside the table are `undefined`. -/
def PRESET_SFX (id : String) : Option String :=
  if id = "None" then Option.some ""
  else if id = "Laser Zap" then
    Option.some "UklGRiYAAABXQVZFZm10IBAAAAABAAEARKwAAIhYAQACABgAZGF0YQIAAAB/fw=="
  else if id = "Air Horn" then
    Option.some "UklGRiYAAABXQVZFZm10IBAAAAABAAEARKwAAIhYAQACABgAZGF0YQIAAAB/fw=="
  else if id = "Record Scratch" then
    Option.some "UklGRiYAAABXQVZFZm10IBAAAAABAAEARKwAAIhYAQACABgAZGF0YQIAAAB/fw=="
  else if id = "Explosion" then
    Option.some "UklGRiYAAABXQVZFZm10IBAAAAABAAEARKwAAIhYAQACABgAZGF0YQIAAAB/fw=="
  else Option.none

/-- `PRESET_TRACKS` in the background-track service, keyed by the
`BackgroundTrackPreset` string values. -/
def PRESET_TRACKS (id : String) : Option String :=
  if id = "None" then Option.some ""
  else if id = "Synth Whoosh" then
    Option.some "UklGRiQAAABXQVZFZm10IBAAAAABAAEAVFYAAFRWAAABAAgAZGF0YQAAAAA="
  else if id = "News Jingle" then
    Option.some "UklGRiQAAABXQVZFZm10IBAAAAABAAEAVFYAAFRWAAABAAgAZGF0YQAAAAA="
  else if id = "Rock Riff" then
    Option.some "UklGRiQAAABXQVZFZm10IBAAAAABAAEAVFYAAFRWAAABAAgAZGF0YQAAAAA="
  else Option.none

/-- `getSfxBlob` (sfxService.ts lines 25-38): serve from the cache when
present; throw when the table holds no entry (`typeof === 'undefined'`);
otherwise decode, cache, and return.  The updated cache is returned
explicitly; on error it is unchanged. -/
def getSfxBlob (cache : List (String × SBlob)) (preset : String) :
    Except String SBlob × List (String × SBlob) :=
  match cache.lookup preset with
  | Option.some b => (Except.ok b, cache)
  | Option.none =>
      match PRESET_SFX preset with
      | Option.none => (Except.error ("Preset SFX not found: " ++ preset), cache)
      | Option.some base64String =>
          let blob := base64ToBlobSfx base64String "audio/wav"
          (Except.ok blob, (preset, blob) :: cache)

/-- `getTrackBlob` (background-track service lines 23-36): like
`getSfxBlob`, but the guard is `!base64String`, which also rejects the
empty `None` entry. -/
def getTrackBlob (cache : List (String × SBlob)) (preset : String) :
    Except String SBlob × List (String × SBlob) :=
  match cache.lookup preset with
  | Option.some b => (Except.ok b, cache)
  | Option.none =>
      match PRESET_TRACKS preset with
      | Option.none => (Except.error ("Preset track not found: " ++ preset), cache)
      | Option.some base64String =>
          if base64String = "" then
            (Except.error ("Preset track not found: " ++ preset), cache)
          else
            let blob := base64ToBlobTrack base64String "audio/wav"
            (Except.ok blob, (preset, blob) :: cache)

/-! ## Per-Take reprocessing protocol (`updateTakeState` /
`processAudioForTake` in the application root, lines 78-157)

`updateTakeState` synchronously stores the new configuration and sets
`isProcessing`, then awaits `processAudioForTake`, then commits the
produced buffers unconditionally in a state update.  Configurations are
abstracted as naturals and the rendering pipeline as a function
`render : ℕ → ℕ`; an execution is an interleaving of `beginUpdate`
(the synchronous head of one invocation) and `commitUpdate` (its
completion, carrying the configuration its closure captured). -/

structure TakeProcState where
  config : ℕ
  finalBlob : Option ℕ
  isProcessing : Bool
deriving DecidableEq

inductive TakeEvent
  | beginUpdate (cfg : ℕ)
  | commitUpdate (cfg : ℕ)

/-- One step of the protocol.  The commit branch mirrors the final
`setGenerationResults` callback: it assigns the rendered buffers and
clears `isProcessing` with no check that `cfg` is still the latest
requested configuration. -/
def takeStep (render : ℕ → ℕ) (s : TakeProcState) : TakeEvent → TakeProcState
  | TakeEvent.beginUpdate cfg => { s with config := cfg, isProcessing := true }
  | TakeEvent.commitUpdate cfg =>
      { s with finalBlob := Option.some (render cfg), isProcessing := false }

/-- Run an interleaved execution trace. -/
def runTakeTrace (render : ℕ → ℕ) (s : TakeProcState) (tr : List TakeEvent) :
    TakeProcState :=
  tr.foldl (takeStep render) s

/-! ## Theorems -/

/-- A 2-frame mono voice clip at a 1 Hz sample rate (duration 2 s). -/
def demoVoice : AudioClip :=
  { sampleRate := 1, numberOfChannels := 1, length := 2, data := fun _ _ => 1 }

/-- A 3-frame mono layer clip at the same rate (duration 3 s, longer
than the voice). -/
def demoLayer : AudioClip :=
  { sampleRate := 1, numberOfChannels := 1, length := 3, data := fun _ _ => 1 / 2 }

lemma transientContribution_none (v : AudioClip) (l : TransientLayer)
    (h : l.blob = Option.none) (ch n : ℕ) :
    transientContribution v l ch n = 0 := by
  simp [transientContribution, h]

lemma backgroundContribution_none (b : BackgroundLayer)
    (h : b.blob = Option.none) (ch n : ℕ) :
    backgroundContribution (Option.some b) ch n = 0 := by
  simp [backgroundContribution, h]

/-- C1: every mix renders into an `OfflineAudioContext` built from the
voice buffer's channel count, length and sample rate, so the output
clip's length, channel count and sample rate equal the voice clip's, for
any combination of optional layers of any size. -/
theorem mixAudio_preserves_voice_dimensions (v : AudioClip)
    (bg : Option BackgroundLayer) (sfx drops : List TransientLayer) :
    ∃ out : AudioClip,
      mixAudio (Option.some v) bg sfx drops = Option.some out
        ∧ out.length = v.length
        ∧ out.numberOfChannels = v.numberOfChannels
        ∧ out.sampleRate = v.sampleRate :=
  ⟨mixRender v bg sfx drops, rfl, rfl, rfl, rfl⟩

/-- C4: contrary to the specification's required render tail, the
`CosmicDelay` offline render is sized to exactly the input's length
(`renderLength` is only overridden for the pitch-shift presets), so the
decaying feedback repeats past the input's duration are cut off.  In
particular a 1-second clip at 24000 Hz renders exactly 24000 frames. -/
theorem cosmicDelay_render_not_extended :
    (∀ L : ℕ, renderLength EffectPreset.cosmicDelay L = L)
      ∧ renderLength EffectPreset.cosmicDelay 24000 = 24000
      ∧ ¬ 24000 < renderLength EffectPreset.cosmicDelay 24000 :=
  ⟨fun _ => rfl, rfl, by decide⟩

/-- C5: the pitch-shift presets render `ceil(length / 1.25)` and
`ceil(length / 0.8)` frames respectively, with sample rate and channel
count unchanged; concrete checks at 48000 and 7 input frames. -/
theorem pitchShift_output_length (s : RenderSpec) :
    (applyEffectMeta s EffectPreset.pitchShiftUp).length
        = ⌈(s.length : ℚ) / 1.25⌉₊
      ∧ (applyEffectMeta s EffectPreset.pitchShiftDown).length
        = ⌈(s.length : ℚ) / 0.8⌉₊
      ∧ (applyEffectMeta s EffectPreset.pitchShiftUp).sampleRate = s.sampleRate
      ∧ (applyEffectMeta s EffectPreset.pitchShiftUp).numberOfChannels
        = s.numberOfChannels
      ∧ (applyEffectMeta s EffectPreset.pitchShiftDown).sampleRate = s.sampleRate
      ∧ (applyEffectMeta s EffectPreset.pitchShiftDown).numberOfChannels
        = s.numberOfChannels
      ∧ renderLength EffectPreset.pitchShiftUp 48000 = 38400
      ∧ renderLength EffectPreset.pitchShiftDown 48000 = 60000
      ∧ renderLength EffectPreset.pitchShiftUp 7 = 6
      ∧ renderLength EffectPreset.pitchShiftDown 7 = 9 := by
  refine ⟨rfl, rfl, rfl, rfl, rfl, rfl, ?_, ?_, ?_, ?_⟩ <;>
    · show Nat.ceil _ = _
      rw [Nat.ceil_eq_iff (by norm_num)]
      constructor <;> norm_num [PITCH_UP_RATE, PITCH_DOWN_RATE]

/-- C2: a transient layer's start offset is `0` for `Start`,
`voiceDuration/2 - layerDuration/2` for `Middle`, and
`voiceDuration - layerDuration` for `End`, clamped to a minimum of `0`;
for `End` with the layer longer than the voice the offset clamps to
exactly `0`; and the layer is never truncated before summing — every
layer frame starting at the computed offset contributes at the
configured gain, the tail being lost only because the output stops at
the voice's fixed length. -/
theorem transient_layer_offsets (vd ld : ℚ) (voice clip : AudioClip)
    (vol : ℚ) (t : Timing) :
    (startTime vd ld Timing.start = 0
        ∧ startTime vd ld Timing.middle = max 0 (vd / 2 - ld / 2)
        ∧ startTime vd ld Timing.end_ = max 0 (vd - ld))
      ∧ (vd < ld → startTime vd ld Timing.end_ = 0)
      ∧ (∀ ch n, startFrame voice clip t ≤ n →
          n - startFrame voice clip t < clip.length →
          transientContribution voice
              { blob := Option.some clip, volume := vol, timing := t } ch n
            = vol * clip.data ch (n - startFrame voice clip t))
      ∧ (∀ ch n, voice.length ≤ n →
          (mixRender voice Option.none
              [{ blob := Option.some clip, volume := vol, timing := t }] []).data ch n
            = 0) := by
  refine ⟨⟨?_, rfl, rfl⟩, ?_, ?_, ?_⟩
  · simp [startTime, rawStartTime]
  · intro h
    have : vd - ld ≤ 0 := by linarith
    simp [startTime, rawStartTime, max_eq_left this]
  · intro ch n h1 h2
    simp only [transientContribution]
    rw [if_pos ⟨h1, h2⟩]
  · intro ch n h
    simp only [mixRender]
    rw [if_neg]
    rintro ⟨-, h2⟩
    omega

/-- Witness for C2 at concrete clips: the voice lasts 2 s, the layer
3 s, placement `End`; the offset clamps to 0, frame 1 of the output
receives the layer's frame 1 at gain 7/10, and output frames past the
voice length are zero. -/
theorem transient_layer_offsets_witness :
    startTime 2 3 Timing.end_ = 0
      ∧ transientContribution demoVoice
          { blob := Option.some demoLayer, volume := 7 / 10, timing := Timing.end_ } 0 1
        = 7 / 10 * demoLayer.data 0 (1 - startFrame demoVoice demoLayer Timing.end_)
      ∧ (mixRender demoVoice Option.none
          [{ blob := Option.some demoLayer, volume := 7 / 10, timing := Timing.end_ }]
          []).data 0 5 = 0 := by
  have hsf : startFrame demoVoice demoLayer Timing.end_ = 0 := by
    have : startTime demoVoice.duration demoLayer.duration Timing.end_ = 0 := by
      simp [demoVoice, demoLayer, AudioClip.duration, startTime, rawStartTime]
      norm_num
    simp [startFrame, this]
  obtain ⟨-, h2, h3, h4⟩ :=
    transient_layer_offsets 2 3 demoVoice demoLayer (7 / 10) Timing.end_
  exact ⟨h2 (by norm_num),
    h3 0 1 (by rw [hsf]; omega) (by rw [hsf]; norm_num [demoLayer]),
    h4 0 5 (by norm_num [demoVoice])⟩

/-- C6: a decode failure in any single optional layer — the background
track, one SFX, or one vocal drop — is caught and only that layer is
dropped: the mix equals the mix without the failed layer, every other
layer still contributes, and the operation still returns a result. -/
theorem mix_skips_failed_layers (v : AudioClip) (bgf : BackgroundLayer)
    (bg : Option BackgroundLayer)
    (sfx drops pre post dpre dpost : List TransientLayer)
    (bad badDrop : TransientLayer)
    (hbg : bgf.blob = Option.none) (hbad : bad.blob = Option.none)
    (hbadDrop : badDrop.blob = Option.none) :
    mixAudio (Option.some v) (Option.some bgf) sfx drops
        = mixAudio (Option.some v) Option.none sfx drops
      ∧ mixAudio (Option.some v) bg (pre ++ bad :: post) drops
        = mixAudio (Option.some v) bg (pre ++ post) drops
      ∧ mixAudio (Option.some v) bg sfx (dpre ++ badDrop :: dpost)
        = mixAudio (Option.some v) bg sfx (dpre ++ dpost)
      ∧ (mixAudio (Option.some v) (Option.some bgf) (pre ++ bad :: post)
          (dpre ++ badDrop :: dpost)).isSome = true := by
  refine ⟨?_, ?_, ?_, rfl⟩
  · refine congrArg Option.some (AudioClip.ext rfl rfl rfl ?_)
    funext ch n
    simp only [mixRender, backgroundContribution_none bgf hbg,
      show ∀ ch n : ℕ, backgroundContribution Option.none ch n = 0 from fun _ _ => rfl,
      add_zero]
  · refine congrArg Option.some (AudioClip.ext rfl rfl rfl ?_)
    funext ch n
    simp only [mixRender, List.map_append, List.sum_append, List.map_cons,
      List.sum_cons, transientContribution_none v bad hbad, zero_add]
  · refine congrArg Option.some (AudioClip.ext rfl rfl rfl ?_)
    funext ch n
    simp only [mixRender, List.map_append, List.sum_append, List.map_cons,
      List.sum_cons, transientContribution_none v badDrop hbadDrop, zero_add]

/-- Witness for C6 at concrete inputs: with the 2-frame demo voice, a
failed background layer, one failed SFX among good ones, and one failed
vocal drop, each failure is dropped individually and the mix still
returns a result. -/
theorem mix_skips_failed_layers_witness :
    mixAudio (Option.some demoVoice)
        (Option.some { blob := Option.none, volume := 1 / 2 }) [] []
        = mixAudio (Option.some demoVoice) Option.none [] []
      ∧ mixAudio (Option.some demoVoice) Option.none
          ([{ blob := Option.some demoLayer, volume := 1, timing := Timing.start }]
            ++ { blob := Option.none, volume := 1, timing := Timing.start } :: [])
          []
        = mixAudio (Option.some demoVoice) Option.none
          ([{ blob := Option.some demoLayer, volume := 1, timing := Timing.start }] ++ [])
          []
      ∧ mixAudio (Option.some demoVoice) Option.none []
          ([] ++ { blob := Option.none, volume := 1, timing := Timing.end_ } :: [])
        = mixAudio (Option.some demoVoice) Option.none [] ([] ++ [])
      ∧ (mixAudio (Option.some demoVoice)
          (Option.some { blob := Option.none, volume := 1 / 2 })
          ([{ blob := Option.some demoLayer, volume := 1, timing := Timing.start }]
            ++ { blob := Option.none, volume := 1, timing := Timing.start } :: [])
          ([] ++ { blob := Option.none, volume := 1, timing := Timing.end_ } :: [])).isSome
        = true := by
  have h := mix_skips_failed_layers demoVoice
    { blob := Option.none, volume := 1 / 2 } Option.none
    [] []
    [{ blob := Option.some demoLayer, volume := 1, timing := Timing.start }] []
    [] []
    { blob := Option.none, volume := 1, timing := Timing.start }
    { blob := Option.none, volume := 1, timing := Timing.end_ }
    rfl rfl rfl
  exact ⟨h.1, h.2.1, h.2.2.1, h.2.2.2⟩

/-- C7: the per-Take update protocol commits a completed render
unconditionally, so a stale in-flight result can overwrite a newer one:
in the trace where configuration 1 is requested, then configuration 2,
then run 2 completes, then run 1 completes, the Take ends holding run
1's (stale) final buffer even though configuration 2 is the latest
requested one. -/
theorem stale_render_overwrites_newer :
    runTakeTrace id { config := 0, finalBlob := Option.none, isProcessing := false }
        [TakeEvent.beginUpdate 1, TakeEvent.beginUpdate 2,
         TakeEvent.commitUpdate 2, TakeEvent.commitUpdate 1]
      = { config := 2, finalBlob := Option.some 1, isProcessing := false }
      ∧ Option.some (1 : ℕ) ≠ Option.some (2 : ℕ) :=
  ⟨rfl, by decide⟩

lemma length_flatMap_const (g : ℕ → List ℕ) (k : ℕ) (hg : ∀ i, (g i).length = k) :
    ∀ n, ((List.range n).flatMap g).length = n * k := by
  intro n
  induction n with
  | zero => simp
  | succ m ih =>
    rw [List.range_succ, List.flatMap_append, List.length_append, ih]
    simp [hg, Nat.succ_mul]

lemma getElem?_flatMap_range (g : ℕ → List ℕ) (k : ℕ) (hg : ∀ i, (g i).length = k)
    (n : ℕ) : ∀ j r : ℕ, j < n → r < k →
    ((List.range n).flatMap g)[j * k + r]? = (g j)[r]? := by
  induction n with
  | zero => omega
  | succ m ih =>
    intro j r hj hr
    rw [List.range_succ, List.flatMap_append, List.getElem?_append,
      length_flatMap_const g k hg m]
    rcases Nat.lt_or_ge j m with h | h
    · rw [if_pos (by calc j * k + r < j * k + k := by omega
                    _ = (j + 1) * k := by ring
                    _ ≤ m * k := Nat.mul_le_mul_right k h)]
      exact ih j r h hr
    · have hjm : j = m := by omega
      subst hjm
      rw [if_neg (by omega)]
      have hsub : j * k + r - j * k = r := by omega
      rw [hsub]
      simp

lemma clamp01_bounds (q : ℚ) : -1 ≤ clamp01 q ∧ clamp01 q ≤ 1 :=
  ⟨le_max_left _ _, max_le (by norm_num) (min_le_left _ _)⟩

lemma scale16_clamp_bounds (q : ℚ) :
    -32768 ≤ scale16 (clamp01 q) ∧ scale16 (clamp01 q) ≤ 32767 := by
  obtain ⟨h1, h2⟩ := clamp01_bounds q
  unfold scale16
  split
  · constructor <;> nlinarith
  · constructor <;> nlinarith

lemma ratTrunc_bounds (x : ℚ) (h1 : -32768 ≤ x) (h2 : x ≤ 32767) :
    -32768 ≤ ratTrunc x ∧ ratTrunc x ≤ 32767 := by
  unfold ratTrunc
  split
  · refine ⟨le_trans (by norm_num) (Int.floor_nonneg.mpr (by assumption)), ?_⟩
    calc ⌊x⌋ ≤ ⌊(32767 : ℚ)⌋ := Int.floor_le_floor h2
      _ = 32767 := by norm_num
  · next h =>
    push_neg at h
    constructor
    · calc (-32768 : ℤ) = ⌈(-32768 : ℚ)⌉ := by
            rw [show ((-32768 : ℚ)) = ((-32768 : ℤ) : ℚ) by norm_num, Int.ceil_intCast]
        _ ≤ ⌈x⌉ := Int.ceil_le_ceil h1
    · refine le_trans ?_ (by norm_num : (0 : ℤ) ≤ 32767)
      calc ⌈x⌉ ≤ ⌈(0 : ℚ)⌉ := Int.ceil_le_ceil h.le
        _ = 0 := by norm_num

lemma toUint16_signed (i : ℤ) (h1 : -32768 ≤ i) (h2 : i ≤ 32767) :
    (if 32768 ≤ toUint16 i then ((toUint16 i : ℤ) - 65536) else (toUint16 i : ℤ)) = i := by
  rcases le_or_lt 32768 (toUint16 i) with h | h
  · rw [if_pos h]
    simp only [toUint16] at *
    omega
  · rw [if_neg (by omega)]
    simp only [toUint16] at *
    omega

lemma jsToInt16_eq_ratTrunc (q : ℚ) (h1 : -32768 ≤ ratTrunc q)
    (h2 : ratTrunc q ≤ 32767) :
    jsToInt16 q = ratTrunc q := by
  simp only [jsToInt16]
  exact toUint16_signed _ h1 h2

/-- A 1-frame mono clip whose single sample is 2/5 (scaled value
13106.8, which truncation and round-to-nearest send to different
words). -/
def cexClip : AudioClip :=
  { sampleRate := 8000, numberOfChannels := 1, length := 1, data := fun _ _ => 2 / 5 }

lemma encodeSampleWord_two_fifths : encodeSampleWord (2 / 5) = 13106 := by
  have hc : clamp01 (2 / 5) = 2 / 5 := by
    rw [clamp01, min_eq_right (by norm_num), max_eq_right (by norm_num)]
  have hs : scale16 (2 / 5 : ℚ) = 65534 / 5 := by
    rw [scale16, if_neg (by norm_num)]
    norm_num
  have ht : ratTrunc (65534 / 5) = 13106 := by
    rw [ratTrunc, if_pos (by norm_num)]
    norm_num
  rw [encodeSampleWord, hc, hs, ht]
  decide

lemma specRoundSampleWord_two_fifths : specRoundSampleWord (2 / 5) = 13107 := by
  have hc : clamp01 (2 / 5) = 2 / 5 := by
    rw [clamp01, min_eq_right (by norm_num), max_eq_right (by norm_num)]
  have hs : scale16 (2 / 5 : ℚ) = 65534 / 5 := by
    rw [scale16, if_neg (by norm_num)]
    norm_num
  have hr : round ((65534 : ℚ) / 5) = 13107 := by
    rw [round_eq]
    norm_num
  rw [specRoundSampleWord, hc, hs, hr]
  decide

/-- C3 counterexample: the encoder stores the 16-bit word by `setInt16`
truncation toward zero, not by rounding to the nearest integer — on the
1-frame clip with sample 2/5 (scaled to 13106.8) the produced container
differs from the one the spec's round-to-nearest wording predicts (data
bytes `[50, 51]` for 13106 versus `[51, 51]` for 13107). -/
theorem encode_round_nearest_counterexample :
    audioBufferToWavBytes cexClip ≠ specRoundWavBytes cexClip := by
  have e1 : audioBufferToWavBytes cexClip = wavHeader cexClip ++ [50, 51] := by
    simp [audioBufferToWavBytes, frameBytes, sampleBytes, cexClip,
      encodeSampleWord_two_fifths, u16le,
      show List.range 1 = [0] from by decide, List.flatMap_cons, List.flatMap_nil]
  have e2 : specRoundWavBytes cexClip = wavHeader cexClip ++ [51, 51] := by
    simp [specRoundWavBytes, cexClip, specRoundSampleWord_two_fifths, u16le,
      show List.range 1 = [0] from by decide, List.flatMap_cons, List.flatMap_nil]
  intro h
  rw [e1, e2] at h
  exact absurd (List.append_cancel_left h) (by decide)

/-- C3 amended: the container is exactly
`channelCount * sampleLength * 2 + 44` bytes; each sample is clamped to
`[-1,1]`, scaled by 32768 (negative) or 32767 (non-negative), then
TRUNCATED toward zero (the `setInt16` conversion) — not rounded to
nearest — and the resulting in-range word never wraps; samples are
interleaved frame-major: the two little-endian bytes of frame `f`,
channel `ch` sit at offset `44 + 2 * (f * channelCount + ch)`. -/
theorem encode_truncates_and_interleaves (c : AudioClip)
    (_hch : 0 < c.numberOfChannels) :
    (audioBufferToWavBytes c).length = c.numberOfChannels * c.length * 2 + 44
      ∧ (∀ f ch, f < c.length → ch < c.numberOfChannels →
          (audioBufferToWavBytes c)[44 + 2 * (f * c.numberOfChannels + ch)]?
              = Option.some (encodeSampleWord (c.data ch f) % 256)
            ∧ (audioBufferToWavBytes c)[44 + 2 * (f * c.numberOfChannels + ch) + 1]?
              = Option.some (encodeSampleWord (c.data ch f) / 256 % 256))
      ∧ (∀ q : ℚ,
          jsToInt16 (scale16 (clamp01 q)) = ratTrunc (scale16 (clamp01 q))
            ∧ -32768 ≤ jsToInt16 (scale16 (clamp01 q))
            ∧ jsToInt16 (scale16 (clamp01 q)) ≤ 32767) := by
  have hfb : ∀ f, (frameBytes c f).length = c.numberOfChannels * 2 := fun f =>
    length_flatMap_const (fun ch => sampleBytes (c.data ch f)) 2 (fun _ => rfl)
      c.numberOfChannels
  have hhead : (wavHeader c).length = 44 := rfl
  refine ⟨?_, ?_, ?_⟩
  · simp only [audioBufferToWavBytes]
    rw [List.length_append, hhead,
      length_flatMap_const _ (c.numberOfChannels * 2) hfb c.length]
    ring
  · intro f ch hf hchlt
    have hkey : ∀ b : ℕ, b < 2 →
        (audioBufferToWavBytes c)[44 + 2 * (f * c.numberOfChannels + ch) + b]?
          = (sampleBytes (c.data ch f))[b]? := by
      intro b hb
      simp only [audioBufferToWavBytes]
      rw [List.getElem?_append, hhead, if_neg (by omega)]
      have hsub : 44 + 2 * (f * c.numberOfChannels + ch) + b - 44
          = 2 * (f * c.numberOfChannels + ch) + b := by omega
      have harith : 2 * (f * c.numberOfChannels + ch) + b
          = f * (c.numberOfChannels * 2) + (2 * ch + b) := by ring
      rw [hsub, harith,
        getElem?_flatMap_range (frameBytes c) (c.numberOfChannels * 2) hfb
          c.length f (2 * ch + b) hf (by omega)]
      simp only [frameBytes]
      have harith2 : 2 * ch + b = ch * 2 + b := by ring
      rw [harith2,
        getElem?_flatMap_range (fun i => sampleBytes (c.data i f)) 2 (fun _ => rfl)
          c.numberOfChannels ch b hchlt hb]
    constructor
    · have h0 := hkey 0 (by omega)
      simp only [Nat.add_zero] at h0
      rw [h0]
      rfl
    · have h1 := hkey 1 (by omega)
      rw [h1]
      rfl
  · intro q
    obtain ⟨hb1, hb2⟩ := scale16_clamp_bounds q
    obtain ⟨ht1, ht2⟩ := ratTrunc_bounds _ hb1 hb2
    have he := jsToInt16_eq_ratTrunc (scale16 (clamp01 q)) ht1 ht2
    exact ⟨he, by rw [he]; exact ht1, by rw [he]; exact ht2⟩

/-- Witness for C3 (amended) at the concrete 1-frame mono clip: the
container is 46 bytes, the first data byte at offset 44 is the low byte
of the truncated word 13106, and the stored signed value is the
truncation of the scaled sample. -/
theorem encode_truncates_and_interleaves_witness :
    0 < cexClip.numberOfChannels
      ∧ (audioBufferToWavBytes cexClip).length
          = cexClip.numberOfChannels * cexClip.length * 2 + 44
      ∧ (audioBufferToWavBytes cexClip)[44 + 2 * (0 * cexClip.numberOfChannels + 0)]?
          = Option.some (encodeSampleWord (cexClip.data 0 0) % 256)
      ∧ jsToInt16 (scale16 (clamp01 (2 / 5)))
          = ratTrunc (scale16 (clamp01 (2 / 5))) := by
  obtain ⟨hlen, hpos, hsem⟩ :=
    encode_truncates_and_interleaves cexClip (by norm_num [cexClip])
  exact ⟨by norm_num [cexClip], hlen,
    (hpos 0 0 (by norm_num [cexClip]) (by norm_num [cexClip])).1,
    (hsem (2 / 5)).1⟩

/-- C8: resolving a preset id outside the fixed table fails with the
store's unknown-preset error, and the failure leaves the cache without
an entry for that id, in both the SFX store and the background-track
store. -/
theorem unknown_preset_fails_cache_unchanged (id : String)
    (c₁ c₂ : List (String × SBlob))
    (hs : PRESET_SFX id = Option.none) (h₁ : c₁.lookup id = Option.none)
    (ht : PRESET_TRACKS id = Option.none) (h₂ : c₂.lookup id = Option.none) :
    getSfxBlob c₁ id = (Except.error ("Preset SFX not found: " ++ id), c₁)
      ∧ (getSfxBlob c₁ id).2.lookup id = Option.none
      ∧ getTrackBlob c₂ id = (Except.error ("Preset track not found: " ++ id), c₂)
      ∧ (getTrackBlob c₂ id).2.lookup id = Option.none := by
  have e1 : getSfxBlob c₁ id = (Except.error ("Preset SFX not found: " ++ id), c₁) := by
    simp only [getSfxBlob, h₁, hs]
  have e2 : getTrackBlob c₂ id
      = (Except.error ("Preset track not found: " ++ id), c₂) := by
    simp only [getTrackBlob, h₂, ht]
  exact ⟨e1, by rw [e1]; exact h₁, e2, by rw [e2]; exact h₂⟩

/-- Witness for C8: the id `Foo` is in neither table; both stores fail
on it and both empty caches stay empty. -/
theorem unknown_preset_fails_cache_unchanged_witness :
    getSfxBlob [] "Foo" = (Except.error ("Preset SFX not found: " ++ "Foo"), [])
      ∧ (getSfxBlob [] "Foo").2.lookup "Foo" = Option.none
      ∧ getTrackBlob [] "Foo" = (Except.error ("Preset track not found: " ++ "Foo"), [])
      ∧ (getTrackBlob [] "Foo").2.lookup "Foo" = Option.none :=
  unknown_preset_fails_cache_unchanged "Foo" [] [] rfl rfl rfl rfl

/-- C9 counterexample: the claim says every preset store resolves the
`None` (empty) id to a zero-length clip, but the background-track
store's guard `!base64String` also rejects the empty entry, so resolving
`None` there fails with the unknown-preset error instead of
succeeding. -/
theorem none_track_preset_fails :
    getTrackBlob [] "None" = (Except.error "Preset track not found: None", []) :=
  rfl

/-- C9 amended: resolving `None` succeeds with a zero-length blob in the
SFX store (its `base64ToBlob` short-circuits the empty string to an
empty blob), while the background-track store rejects `None` with its
unknown-preset error; callers filter `None` out before resolving, and
the effect engine treats its `None` as an identity passthrough with no
asset store at all. -/
theorem none_preset_resolution :
    getSfxBlob [] "None"
        = (Except.ok { bytes := [], type := "audio/wav" },
            [("None", { bytes := [], type := "audio/wav" })])
      ∧ (getTrackBlob [] "None").1 = Except.error "Preset track not found: None"
      ∧ applyEffectMeta { numberOfChannels := 1, length := 48000, sampleRate := 24000 }
          EffectPreset.none
        = { numberOfChannels := 1, length := 48000, sampleRate := 24000 } :=
  ⟨rfl, rfl, rfl⟩

/-- The non-`None` SFX preset ids. -/
def sfxNonNonePresets : List String :=
  ["Laser Zap", "Air Horn", "Record Scratch", "Explosion"]

/-- The non-`None` background-track preset ids. -/
def trackNonNonePresets : List String :=
  ["Synth Whoosh", "News Jingle", "Rock Riff"]

/-- C10: any two distinct (or equal) non-`None` SFX presets resolve to
byte-identical blobs, because all four table entries hold the same
embedded placeholder base64 string; likewise for the non-`None`
background-track presets. -/
theorem preset_placeholders_identical (p q r s : String)
    (hp : p ∈ sfxNonNonePresets) (hq : q ∈ sfxNonNonePresets)
    (hr : r ∈ trackNonNonePresets) (hs : s ∈ trackNonNonePresets) :
    (getSfxBlob [] p).1 = (getSfxBlob [] q).1
      ∧ (getTrackBlob [] r).1 = (getTrackBlob [] s).1 := by
  constructor
  · fin_cases hp <;> fin_cases hq <;> rfl
  · fin_cases hr <;> fin_cases hs <;> rfl

/-- Witness for C10 at two distinct presets of each store. -/
theorem preset_placeholders_identical_witness :
    (getSfxBlob [] "Laser Zap").1 = (getSfxBlob [] "Explosion").1
      ∧ (getTrackBlob [] "Synth Whoosh").1 = (getTrackBlob [] "Rock Riff").1 :=
  preset_placeholders_identical "Laser Zap" "Explosion" "Synth Whoosh" "Rock Riff"
    (by simp [sfxNonNonePresets]) (by simp [sfxNonNonePresets])
    (by simp [trackNonNonePresets]) (by simp [trackNonNonePresets])

end RadioSweeper
